import Mathlib

/-!
Verification of the claims-risk detection core (`risk_detector.py`).

The Claims Table (a pandas `DataFrame` after `_clean_data`) is embedded as a
`List Claim`.  Columns that the cleaning stage does not fill may still be
null (pandas `NaN`/`NaT`) and are modelled as `Option` fields; `Paid Amount`,
`Selling Dealer` and `Default Servicer` are non-null after cleaning and are
modelled with plain types.  Numeric cells are modelled as exact rationals,
calendar dates as integer day numbers.
-/

namespace RiskDetect

/-- One row of the cleaned Claims Table.  Field order follows the column
set used by the detectors: `Claim #`, `VIN`, `Paid Amount`, `Selling Dealer`,
`RO Date`, `Entry Date`, `Vehicle`, `Coverage`, `Default Servicer`. -/
structure Claim where
  claimNum : Option String
  vin : Option String
  paidAmount : ℚ
  sellingDealer : String
  roDate : Option Int
  entryDate : Option Int
  vehicle : Option String
  coverage : Option String
  defaultServicer : String
deriving DecidableEq

/-- A raw cell of a typed column before coercion: either missing (`NaN`),
a value that parses, or a value that fails to parse. -/
inductive RawCell (α : Type) where
  | missing
  | parsed (a : α)
  | unparsable
deriving DecidableEq

/-- One row of the raw input table, before `_clean_data` runs.  String
columns cannot fail to parse, so they are plain `Option`; the numeric and
date columns can additionally hold unparsable text. -/
structure RawClaim where
  claimNum : Option String
  vin : Option String
  paidAmount : RawCell ℚ
  sellingDealer : Option String
  roDate : RawCell Int
  entryDate : RawCell Int
  vehicle : Option String
  coverage : Option String
  defaultServicer : Option String
deriving DecidableEq

/-- A raw row is entirely empty when every cell is missing
(`dropna(how='all')` removes exactly these rows). -/
def rowEmpty (r : RawClaim) : Bool :=
  r.claimNum = none && r.vin = none && r.paidAmount = RawCell.missing &&
  r.sellingDealer = none && r.roDate = RawCell.missing &&
  r.entryDate = RawCell.missing && r.vehicle = none && r.coverage = none &&
  r.defaultServicer = none

/-- Coercion of a single raw row, following `_clean_data`:
`pd.to_datetime(errors='coerce')` turns unparsable dates into `NaT` (none);
`pd.to_numeric(errors='coerce')` followed by `fillna(0)` turns a missing or
unparsable `Paid Amount` into `0`; `fillna('Unknown')` fills the two dealer
columns. -/
def cleanClaim (r : RawClaim) : Claim :=
  { claimNum := r.claimNum
    vin := r.vin
    paidAmount := match r.paidAmount with | RawCell.parsed q => q | _ => 0
    sellingDealer := r.sellingDealer.getD "Unknown"
    roDate := match r.roDate with | RawCell.parsed d => some d | _ => none
    entryDate := match r.entryDate with | RawCell.parsed d => some d | _ => none
    vehicle := r.vehicle
    coverage := r.coverage
    defaultServicer := r.defaultServicer.getD "Unknown" }

/-- `_clean_data`: drop entirely-empty rows, then coerce every remaining row. -/
def clean_data (raw : List RawClaim) : List Claim :=
  (raw.filter (fun r => !rowEmpty r)).map cleanClaim

/-! ### Shared numeric helpers (pandas aggregation primitives).

Rational division by zero is `0` in Lean; pandas instead produces `NaN` for
the mean/max of an empty series.  The only places an empty series can reach
these helpers are the global summary statistics of an empty table, where the
code formats the `NaN` without branching on it, so the convention is
observationally harmless and every theorem below avoids relying on the
value of a mean or max over an empty list. -/

/-- Mean of a list of rationals (`Series.mean`). -/
def ratMean (l : List ℚ) : ℚ := l.sum / (l.length : ℚ)

/-- Maximum of a list of rationals (`Series.max`); `0` on the empty list. -/
def ratMax : List ℚ → ℚ
  | [] => 0
  | x :: xs => xs.foldl max x

/-- Distinct-value count of a list (`Series.nunique` over non-null values). -/
def nunique (l : List String) : Nat := l.dedup.length

/-! ### Detector: multiple claims per VIN (`detect_multiple_claims_per_vin`) -/

/-- The rows of the table whose (non-null) VIN equals `v`
(`self.data[self.data['VIN'] == vin]`). -/
def vinClaims (data : List Claim) (v : String) : List Claim :=
  data.filter (fun c => c.vin = some v)

/-- `groupby('VIN').size()` for one VIN: the number of rows carrying it. -/
def vin_claim_count (data : List Claim) (v : String) : Nat :=
  (vinClaims data v).length

/-- The group keys of `groupby('VIN')`: the distinct non-null VINs
(pandas drops null keys). -/
def vinKeys (data : List Claim) : List String :=
  (data.filterMap (fun c => c.vin)).dedup

/-- `high_claim_vins`: VINs whose row count reaches the threshold. -/
def high_claim_vins (data : List Claim) (threshold : Int) : List String :=
  (vinKeys data).filter (fun v => decide (threshold ≤ (vin_claim_count data v : Int)))

/-- `detect_multiple_claims_per_vin`: all rows whose VIN is one of the
qualifying VINs (`self.data['VIN'].isin(high_claim_vins['VIN'])`; a null
VIN is never a member). -/
def detect_multiple_claims_per_vin (data : List Claim) (threshold : Int) : List Claim :=
  data.filter (fun c =>
    match c.vin with
    | some v => decide (v ∈ high_claim_vins data threshold)
    | none => false)

/-! ### Detector: multiple dealers per VIN (`detect_multiple_dealers_per_vin`) -/

/-- `groupby('VIN')['Selling Dealer'].nunique()` for one VIN. -/
def vin_dealer_count (data : List Claim) (v : String) : Nat :=
  nunique ((vinClaims data v).map (fun c => c.sellingDealer))

/-- `multi_dealer_vins`: VINs with more than one distinct selling dealer. -/
def multi_dealer_vins (data : List Claim) : List String :=
  (vinKeys data).filter (fun v => decide (1 < vin_dealer_count data v))

/-- `detect_multiple_dealers_per_vin`: all rows of VINs with claims from
more than one selling dealer. -/
def detect_multiple_dealers_per_vin (data : List Claim) : List Claim :=
  data.filter (fun c =>
    match c.vin with
    | some v => decide (v ∈ multi_dealer_vins data)
    | none => false)

/-! ### Detector: high dollar claims (`detect_high_dollar_claims`)

The source filters on `Paid Amount > mean + std_dev_threshold * std` where
`std` is the sample standard deviation (`Series.std`, `ddof=1`), an
irrational square root.  `gtMulSqrt a k v` is an exact rational decision of
the real comparison `a > k * √v` (see `gtMulSqrt_iff_real` below), applied
with `a := paid - mean` and `v := ` the sample variance. -/

/-- Mean of the `Paid Amount` column. -/
def paidMean (data : List Claim) : ℚ := ratMean (data.map (fun c => c.paidAmount))

/-- Sample variance (`ddof = 1`) of the `Paid Amount` column; the rational
division-by-zero convention gives `0` for tables with at most one row,
where pandas yields a `NaN` standard deviation and the strict comparison
below is false either way. -/
def paidSampleVar (data : List Claim) : ℚ :=
  let xs := data.map (fun c => c.paidAmount)
  ((xs.map (fun x => (x - ratMean xs) ^ 2)).sum) / ((xs.length : ℚ) - 1)

/-- Decides `a > k * Real.sqrt v` for rationals with `0 ≤ v`. -/
def gtMulSqrt (a k v : ℚ) : Bool :=
  if k < 0 then
    decide (0 < a) || (decide (a = 0) && decide (0 < v)) ||
      (decide (a < 0) && decide (a ^ 2 < k ^ 2 * v))
  else
    decide (0 < a) && decide (k ^ 2 * v < a ^ 2)

/-- `detect_high_dollar_claims`: rows whose paid amount strictly exceeds
`mean + std_dev_threshold * std`. -/
def detect_high_dollar_claims (data : List Claim) (stdDevThreshold : ℚ) : List Claim :=
  data.filter (fun c =>
    gtMulSqrt (c.paidAmount - paidMean data) stdDevThreshold (paidSampleVar data))

/-! ### Detector: high claims per dealer (`detect_high_claims_per_dealer`) -/

/-- The rows of the table sold by dealer `d` (`Selling Dealer` is non-null
after cleaning, so grouping by it drops no row). -/
def dealerClaims (data : List Claim) (d : String) : List Claim :=
  data.filter (fun c => c.sellingDealer = d)

/-- Group keys of `groupby('Selling Dealer')`. -/
def dealerKeys (data : List Claim) : List String :=
  (data.map (fun c => c.sellingDealer)).dedup

/-- `claim_count=('Claim #', 'count')`: pandas `count` counts the non-null
`Claim #` cells of the group, not its rows. -/
def dealer_claim_count (data : List Claim) (d : String) : Nat :=
  ((dealerClaims data d).filter (fun c => c.claimNum.isSome)).length

/-- `total_paid=('Paid Amount', 'sum')` for one dealer. -/
def dealer_total_paid (data : List Claim) (d : String) : ℚ :=
  ((dealerClaims data d).map (fun c => c.paidAmount)).sum

/-- `avg_paid=('Paid Amount', 'mean')` for one dealer. -/
def dealer_avg_paid (data : List Claim) (d : String) : ℚ :=
  ratMean ((dealerClaims data d).map (fun c => c.paidAmount))

/-- Overall average claim amount (`self.data['Paid Amount'].mean()`). -/
def overall_avg (data : List Claim) : ℚ := paidMean data

/-- One row of the `dealer_stats` aggregation table. -/
structure DealerStat where
  dealer : String
  claim_count : Nat
  total_paid : ℚ
  avg_paid : ℚ
deriving DecidableEq

/-- The `dealer_stats` table: one aggregate row per distinct dealer. -/
def dealer_stats (data : List Claim) : List DealerStat :=
  (dealerKeys data).map (fun d =>
    { dealer := d
      claim_count := dealer_claim_count data d
      total_paid := dealer_total_paid data d
      avg_paid := dealer_avg_paid data d })

/-- The row filter of `high_risk_dealers`: claim count at least
`count_threshold` OR average paid at least `overall_avg * multiplier`. -/
def dealerFlagged (data : List Claim) (countThreshold : Int) (mult : ℚ)
    (s : DealerStat) : Bool :=
  decide (countThreshold ≤ (s.claim_count : Int)) ||
    decide (overall_avg data * mult ≤ s.avg_paid)

/-- `high_risk_dealers`: the flagged rows of `dealer_stats` (the value the
method returns). -/
def detect_high_claims_per_dealer (data : List Claim) (countThreshold : Int)
    (mult : ℚ) : List DealerStat :=
  (dealer_stats data).filter (dealerFlagged data countThreshold mult)

/-- The accompanying claims set: rows whose dealer is one of the flagged
dealers (`self.data['Selling Dealer'].isin(high_risk_dealers['Selling Dealer'])`). -/
def high_claims_per_dealer_claims (data : List Claim) (countThreshold : Int)
    (mult : ℚ) : List Claim :=
  data.filter (fun c =>
    decide (c.sellingDealer ∈
      (detect_high_claims_per_dealer data countThreshold mult).map (fun s => s.dealer)))

/-! ### Detector: repeated claims within a timeframe
(`detect_repeated_claims_timeframe`)

The source sorts each VIN's rows by `RO Date` (pandas places `NaT` last)
and scans consecutive row pairs, a pair qualifying only when both dates are
real timestamps and their day difference is at most the threshold.  Only
the date sequence of the sorted rows matters, so the embedding sorts the
projected `RO Date` column under the `NaT`-last order `optLE` and scans it. -/

/-- The `NaT`-last ascending order pandas uses when sorting on a date
column that contains nulls. -/
def optLE : Option Int → Option Int → Prop
  | some x, some y => x ≤ y
  | some _, none => True
  | none, some _ => False
  | none, none => True

instance : DecidableRel optLE := fun a b =>
  match a, b with
  | some x, some y => inferInstanceAs (Decidable (x ≤ y))
  | some _, none => inferInstanceAs (Decidable True)
  | none, some _ => inferInstanceAs (Decidable False)
  | none, none => inferInstanceAs (Decidable True)

instance : IsTotal (Option Int) optLE :=
  ⟨by intro a b; cases a <;> cases b <;> simp [optLE]; exact le_total _ _⟩

instance : IsTrans (Option Int) optLE := by
  constructor
  intro a b c hab hbc
  cases a <;> cases b <;> cases c <;> simp_all [optLE]
  exact le_trans hab hbc

/-- The consecutive-pair scan of the source: a pair counts only when both
dates are present (`isinstance(..., pd.Timestamp)`) and the later minus the
earlier is at most `d` days. -/
def scanPairs (d : Int) : List (Option Int) → Bool
  | x :: y :: rest =>
    (match x, y with
     | some t1, some t2 => decide (t2 - t1 ≤ d)
     | _, _ => false) || scanPairs d (y :: rest)
  | _ => false

/-- Adjacent-gap test on a plain list of dates. -/
def hasClosePair (d : Int) : List Int → Bool
  | x :: y :: rest => decide (y - x ≤ d) || hasClosePair d (y :: rest)
  | _ => false

/-- The non-null `RO Date` values of one VIN's rows. -/
def vinDates (data : List Claim) (v : String) : List Int :=
  (vinClaims data v).filterMap (fun c => c.roDate)

/-- Whether the source flags VIN `v`: it must have more than one claim
(`multi_claim_vins`) and its date-sorted rows must contain a qualifying
consecutive pair. -/
def rapidVin (data : List Claim) (d : Int) (v : String) : Bool :=
  decide (1 < vin_claim_count data v) &&
    scanPairs d (List.insertionSort optLE ((vinClaims data v).map (fun c => c.roDate)))

/-- `detect_repeated_claims_timeframe`: all rows of the flagged VINs. -/
def detect_repeated_claims_timeframe (data : List Claim) (d : Int) : List Claim :=
  data.filter (fun c =>
    match c.vin with
    | some v => rapidVin data d v
    | none => false)

/-! ### Detectors: luxury vehicle patterns and coverage type patterns -/

/-- The fixed luxury-brand allowlist of `detect_luxury_vehicle_patterns`. -/
def luxury_brands : List String :=
  ["BENTLEY", "FERRARI", "LAMBORGHINI", "MCLAREN", "ROLLS-ROYCE", "ASTON MARTIN",
   "PORSCHE", "MERCEDES-BENZ", "BMW", "AUDI", "MASERATI", "LAND ROVER", "TESLA"]

/-- Brand extraction, `self.data['Vehicle'].str.split(' ').str[1]`: the
second single-space-delimited token, absent when the cell is null or has
fewer than two tokens. -/
def brandOf (vehicle : Option String) : Option String :=
  vehicle.bind (fun s => (s.splitOn " ").get? 1)

/-- `luxury_claims`: rows whose derived brand is on the allowlist
(a null brand is never `isin` the list). -/
def luxuryClaims (data : List Claim) : List Claim :=
  data.filter (fun c =>
    match brandOf c.vehicle with
    | some b => decide (b ∈ luxury_brands)
    | none => false)

/-- One row of a `groupby(...).agg(claim_count, total_paid, avg_paid,
max_paid)` aggregation table. -/
structure GroupStat where
  key : String
  claim_count : Nat
  total_paid : ℚ
  avg_paid : ℚ
  max_paid : ℚ
deriving DecidableEq

/-- Build the aggregate row of one group. -/
def mkGroupStat (key : String) (group : List Claim) : GroupStat :=
  { key := key
    claim_count := (group.filter (fun c => c.claimNum.isSome)).length
    total_paid := (group.map (fun c => c.paidAmount)).sum
    avg_paid := ratMean (group.map (fun c => c.paidAmount))
    max_paid := ratMax (group.map (fun c => c.paidAmount)) }

/-- The `sort_values('total_paid', ascending=False)` order. -/
def statGE (a b : GroupStat) : Prop := b.total_paid ≤ a.total_paid

instance : DecidableRel statGE := fun a b =>
  inferInstanceAs (Decidable (b.total_paid ≤ a.total_paid))

/-- Group keys of `luxury_claims.groupby('Brand')` (brand is non-null on
every filtered row, but `filterMap` keeps the embedding total). -/
def luxuryKeys (data : List Claim) : List String :=
  ((luxuryClaims data).filterMap (fun c => brandOf c.vehicle)).dedup

/-- The rows of one brand group. -/
def brandClaims (data : List Claim) (b : String) : List Claim :=
  (luxuryClaims data).filter (fun c => brandOf c.vehicle = some b)

/-- `luxury_stats`: per-brand aggregates over the luxury subset, sorted by
`total_paid` descending (the value `detect_luxury_vehicle_patterns`
returns when the subset is non-empty, `[]` otherwise — matching the
empty `DataFrame`). -/
def detect_luxury_vehicle_patterns (data : List Claim) : List GroupStat :=
  List.insertionSort statGE
    ((luxuryKeys data).map (fun b => mkGroupStat b (brandClaims data b)))

/-- Group keys of `groupby('Coverage')`: distinct non-null coverage values
(pandas drops null keys). -/
def coverageKeys (data : List Claim) : List String :=
  (data.filterMap (fun c => c.coverage)).dedup

/-- The rows of one coverage group. -/
def coverageClaims (data : List Claim) (v : String) : List Claim :=
  data.filter (fun c => c.coverage = some v)

/-- `detect_coverage_type_patterns`: per-coverage aggregates over the whole
table, sorted by `total_paid` descending. -/
def detect_coverage_type_patterns (data : List Claim) : List GroupStat :=
  List.insertionSort statGE
    ((coverageKeys data).map (fun v => mkGroupStat v (coverageClaims data v)))

/-! ### Summary assembler (`generate_summary_report`)

Each detector stores its finding into `self.results` only when it is
non-empty, so a detector's section of the summary is present exactly when
its finding is non-empty; the coverage section is stored unconditionally. -/

/-- The Summary Report: global statistics plus one optional section per
flag-style detector (`(entities flagged, claims flagged)`, or
`(claims flagged, total amount)` for high-dollar) and the always-present
coverage-type count. -/
structure RiskSummary where
  totalClaims : Nat
  totalPaid : ℚ
  avgClaimAmount : ℚ
  maxClaimAmount : ℚ
  uniqueVins : Nat
  uniqueDealers : Nat
  multipleClaimsVin : Option (Nat × Nat)
  highDollar : Option (Nat × ℚ)
  multipleDealersVin : Option (Nat × Nat)
  repeatedTimeframe : Option (Nat × Nat)
  highClaimsDealer : Option (Nat × Nat)
  luxury : Option (Nat × Nat)
  coverageTypes : Nat
deriving DecidableEq

/-- `result['VIN'].nunique()`: distinct non-null VINs of a finding. -/
def findingVins (finding : List Claim) : Nat :=
  nunique (finding.filterMap (fun c => c.vin))

/-- `generate_summary_report` after `run_all_detections` ran every detector
with the given thresholds. -/
def generate_summary_report (data : List Claim) (vinThreshold : Int)
    (stdDevThreshold : ℚ) (daysThreshold : Int) (countThreshold : Int)
    (mult : ℚ) : RiskSummary :=
  let multi := detect_multiple_claims_per_vin data vinThreshold
  let dollar := detect_high_dollar_claims data stdDevThreshold
  let dealers := detect_multiple_dealers_per_vin data
  let rapid := detect_repeated_claims_timeframe data daysThreshold
  let riskDealers := detect_high_claims_per_dealer data countThreshold mult
  let lux := luxuryClaims data
  { totalClaims := data.length
    totalPaid := (data.map (fun c => c.paidAmount)).sum
    avgClaimAmount := paidMean data
    maxClaimAmount := ratMax (data.map (fun c => c.paidAmount))
    uniqueVins := findingVins data
    uniqueDealers := nunique (data.map (fun c => c.sellingDealer))
    multipleClaimsVin :=
      if multi.isEmpty then none else some (findingVins multi, multi.length)
    highDollar :=
      if dollar.isEmpty then none
      else some (dollar.length, (dollar.map (fun c => c.paidAmount)).sum)
    multipleDealersVin :=
      if dealers.isEmpty then none else some (findingVins dealers, dealers.length)
    repeatedTimeframe :=
      if rapid.isEmpty then none else some (findingVins rapid, rapid.length)
    highClaimsDealer :=
      if riskDealers.isEmpty then none
      else some (riskDealers.length,
        (high_claims_per_dealer_claims data countThreshold mult).length)
    luxury :=
      if lux.isEmpty then none
      else some ((detect_luxury_vehicle_patterns data).length, lux.length)
    coverageTypes := (detect_coverage_type_patterns data).length }

/-! ### Stateful view of the `RiskDetector` object (frame effects)

The Python detectors are methods on an object holding the Claims Table in
`self.data`.  The only statement in any detector or in the summary
assembler that writes to `self.data` is the luxury detector's column
assignment `self.data['Brand'] = self.data['Vehicle'].str.split(' ').str[1]`.
`DetectorState` carries the table rows together with that derived `Brand`
column (`none` while the column does not exist yet); each `_run` function
is the method as a state transformer, translated statement by statement. -/

structure DetectorState where
  data : List Claim
  brandCol : Option (List (Option String))
deriving DecidableEq

/-- `detect_multiple_claims_per_vin` as a state transformer: it only reads
`self.data`. -/
def detect_multiple_claims_per_vin_run (s : DetectorState) (threshold : Int) :
    DetectorState × List Claim :=
  (s, detect_multiple_claims_per_vin s.data threshold)

/-- `detect_high_dollar_claims` as a state transformer. -/
def detect_high_dollar_claims_run (s : DetectorState) (k : ℚ) :
    DetectorState × List Claim :=
  (s, detect_high_dollar_claims s.data k)

/-- `detect_multiple_dealers_per_vin` as a state transformer. -/
def detect_multiple_dealers_per_vin_run (s : DetectorState) :
    DetectorState × List Claim :=
  (s, detect_multiple_dealers_per_vin s.data)

/-- `detect_repeated_claims_timeframe` as a state transformer. -/
def detect_repeated_claims_timeframe_run (s : DetectorState) (d : Int) :
    DetectorState × List Claim :=
  (s, detect_repeated_claims_timeframe s.data d)

/-- `detect_high_claims_per_dealer` as a state transformer. -/
def detect_high_claims_per_dealer_run (s : DetectorState) (ct : Int) (mult : ℚ) :
    DetectorState × List DealerStat :=
  (s, detect_high_claims_per_dealer s.data ct mult)

/-- `detect_luxury_vehicle_patterns` as a state transformer: the one
mutation point — it assigns the derived `Brand` column before filtering,
and the filter then reads exactly that column. -/
def detect_luxury_vehicle_patterns_run (s : DetectorState) :
    DetectorState × List GroupStat :=
  let s2 : DetectorState :=
    { s with brandCol := some (s.data.map (fun c => brandOf c.vehicle)) }
  (s2, detect_luxury_vehicle_patterns s2.data)

/-- `detect_coverage_type_patterns` as a state transformer. -/
def detect_coverage_type_patterns_run (s : DetectorState) :
    DetectorState × List GroupStat :=
  (s, detect_coverage_type_patterns s.data)

/-- `generate_summary_report` as a state transformer. -/
def generate_summary_report_run (s : DetectorState) (t : Int) (k : ℚ)
    (d : Int) (ct : Int) (mult : ℚ) : DetectorState × RiskSummary :=
  (s, generate_summary_report s.data t k d ct mult)

/-! ### Schema errors (missing expected columns)

No detector checks the table's schema: `detect_multiple_claims_per_vin`
starts with `self.data.groupby('VIN')`, and when the `VIN` column is absent
pandas raises an unhandled `KeyError` from inside the grouping call.
`PyOutcome` gives the claim a statement space: `schemaError` is the
explicit "unsupported dataset schema" condition the spec describes (which
no code path produces) and `keyError` is the unchecked library exception. -/

inductive PyOutcome (α : Type) where
  | ok (a : α)
  | schemaError
  | keyError (col : String)
deriving DecidableEq

/-- `detect_multiple_claims_per_vin` run against a table whose column-name
set is `cols`: the `groupby('VIN')` call raises `KeyError('VIN')` when the
column is absent, and otherwise the detector proceeds normally. -/
def detect_multiple_claims_per_vin_checked (cols : List String)
    (data : List Claim) (threshold : Int) : PyOutcome (List Claim) :=
  if "VIN" ∈ cols then PyOutcome.ok (detect_multiple_claims_per_vin data threshold)
  else PyOutcome.keyError "VIN"

/-! ### Helper lemmas -/

lemma length_filter_mono {α : Type} (l : List α) (p q : α → Bool)
    (h : ∀ a ∈ l, p a = true → q a = true) :
    (l.filter p).length ≤ (l.filter q).length := by
  induction l with
  | nil => simp
  | cons a t ih =>
    have ht : ∀ b ∈ t, p b = true → q b = true :=
      fun b hb => h b (List.mem_cons_of_mem a hb)
    by_cases hp : p a = true
    · rw [List.filter_cons_of_pos hp, List.filter_cons_of_pos (h a (List.mem_cons_self a t) hp)]
      simpa using ih ht
    · rw [List.filter_cons_of_neg (by simpa using hp)]
      calc (t.filter p).length ≤ (t.filter q).length := ih ht
        _ ≤ ((a :: t).filter q).length := by
            by_cases hq : q a = true
            · rw [List.filter_cons_of_pos hq]; simp [Nat.le_succ]
            · rw [List.filter_cons_of_neg (by simpa using hq)]

lemma paidSampleVar_nonneg (data : List Claim) : 0 ≤ paidSampleVar data := by
  unfold paidSampleVar
  cases data with
  | nil => norm_num
  | cons c cs =>
    apply div_nonneg
    · apply List.sum_nonneg
      intro x hx
      obtain ⟨y, _, rfl⟩ := List.mem_map.1 hx
      positivity
    · simp only [List.length_map, List.length_cons]
      push_cast
      linarith

lemma gtMulSqrt_mono {a k1 k2 v : ℚ} (hv : 0 ≤ v) (hk : k1 ≤ k2)
    (h : gtMulSqrt a k2 v = true) : gtMulSqrt a k1 v = true := by
  rw [gtMulSqrt] at h
  rw [gtMulSqrt]
  by_cases hk2 : k2 < 0
  · rw [if_pos hk2] at h
    rw [if_pos (lt_of_le_of_lt hk hk2)]
    simp only [Bool.or_eq_true, Bool.and_eq_true, decide_eq_true_eq] at h ⊢
    rcases h with (h | h) | ⟨ha, hsq⟩
    · exact Or.inl (Or.inl h)
    · exact Or.inl (Or.inr h)
    · refine Or.inr ⟨ha, ?_⟩
      have hsqle : k2 ^ 2 ≤ k1 ^ 2 := by nlinarith
      have := mul_le_mul_of_nonneg_right hsqle hv
      linarith
  · rw [if_neg hk2] at h
    simp only [Bool.and_eq_true, decide_eq_true_eq] at h
    by_cases hk1 : k1 < 0
    · rw [if_pos hk1]
      simp only [Bool.or_eq_true, Bool.and_eq_true, decide_eq_true_eq]
      exact Or.inl (Or.inl h.1)
    · rw [if_neg hk1]
      simp only [Bool.and_eq_true, decide_eq_true_eq]
      refine ⟨h.1, ?_⟩
      have h0 : 0 ≤ k1 := not_lt.1 hk1
      have hsqle : k1 ^ 2 ≤ k2 ^ 2 := by nlinarith
      have := mul_le_mul_of_nonneg_right hsqle hv
      linarith

/-! ### C5 -/

/-- C5: for thresholds `k1 ≤ k2`, the high-dollar finding at `k2` is a
subset of the finding at `k1`, and its size is no larger: raising
`std_dev_threshold` only raises the cut `mean + k·std`, so the strict
filter keeps fewer rows. -/
theorem high_dollar_monotone (data : List Claim) (k1 k2 : ℚ) (hk : k1 ≤ k2) :
    detect_high_dollar_claims data k2 ⊆ detect_high_dollar_claims data k1 ∧
    (detect_high_dollar_claims data k2).length ≤
      (detect_high_dollar_claims data k1).length := by
  constructor
  · intro c hc
    rw [detect_high_dollar_claims, List.mem_filter] at hc ⊢
    exact ⟨hc.1, gtMulSqrt_mono (paidSampleVar_nonneg data) hk hc.2⟩
  · exact length_filter_mono data _ _
      (fun c _ => gtMulSqrt_mono (paidSampleVar_nonneg data) hk)

/-- Witness for `high_dollar_monotone` at a concrete table and thresholds. -/
theorem high_dollar_monotone_witness :
    (1 : ℚ) ≤ 2 ∧
    (detect_high_dollar_claims
        [{ claimNum := some "c1", vin := some "V", paidAmount := 100,
           sellingDealer := "D", roDate := none, entryDate := none,
           vehicle := none, coverage := none, defaultServicer := "S" }] 2 ⊆
      detect_high_dollar_claims
        [{ claimNum := some "c1", vin := some "V", paidAmount := 100,
           sellingDealer := "D", roDate := none, entryDate := none,
           vehicle := none, coverage := none, defaultServicer := "S" }] 1) :=
  ⟨by norm_num, (high_dollar_monotone _ 1 2 (by norm_num)).1⟩

/-! ### C1 -/

/-- C1: a row is in `detect_multiple_claims_per_vin(t)` iff it is a table
row with a non-null VIN whose total row count is at least `t`; hence only
qualifying VINs appear and every claim of a qualifying VIN is present. -/
theorem multiple_claims_per_vin_correct (data : List Claim) (t : Int) (c : Claim) :
    c ∈ detect_multiple_claims_per_vin data t ↔
      c ∈ data ∧ ∃ v, c.vin = some v ∧ t ≤ (vin_claim_count data v : Int) := by
  cases h : c.vin with
  | none => simp [detect_multiple_claims_per_vin, List.mem_filter, h]
  | some v =>
    simp only [detect_multiple_claims_per_vin, List.mem_filter, h,
      decide_eq_true_eq, high_claim_vins, List.mem_filter, vinKeys,
      List.mem_dedup, List.mem_filterMap, Option.some.injEq]
    constructor
    · rintro ⟨hc, ⟨-, hcount⟩⟩
      exact ⟨hc, v, rfl, hcount⟩
    · rintro ⟨hc, w, hw, hcount⟩
      subst hw
      exact ⟨hc, ⟨⟨c, hc, h⟩, hcount⟩⟩

/-! ### C10 -/

/-- C10: a claim with a null VIN is invisible to all three VIN-grouping
detectors — grouping drops the null key, and a null VIN is never `isin`
any list of flagged VINs. -/
theorem null_vin_invisible (data : List Claim) (t d : Int) (c : Claim)
    (h : c.vin = none) :
    c ∉ detect_multiple_claims_per_vin data t ∧
    c ∉ detect_multiple_dealers_per_vin data ∧
    c ∉ detect_repeated_claims_timeframe data d := by
  refine ⟨?_, ?_, ?_⟩ <;> intro hc
  · simp [detect_multiple_claims_per_vin, List.mem_filter, h] at hc
  · simp [detect_multiple_dealers_per_vin, List.mem_filter, h] at hc
  · simp [detect_repeated_claims_timeframe, List.mem_filter, h] at hc

/-- Witness for `null_vin_invisible` at a concrete table containing a
null-VIN claim. -/
theorem null_vin_invisible_witness :
    ({ claimNum := some "c9", vin := none, paidAmount := 10, sellingDealer := "D",
       roDate := some 0, entryDate := none, vehicle := none, coverage := none,
       defaultServicer := "S" } : Claim).vin = none ∧
    ({ claimNum := some "c9", vin := none, paidAmount := 10, sellingDealer := "D",
       roDate := some 0, entryDate := none, vehicle := none, coverage := none,
       defaultServicer := "S" } : Claim) ∉
      detect_multiple_claims_per_vin
        [{ claimNum := some "c9", vin := none, paidAmount := 10, sellingDealer := "D",
           roDate := some 0, entryDate := none, vehicle := none, coverage := none,
           defaultServicer := "S" }] 0 :=
  ⟨rfl, (null_vin_invisible _ 0 30 _ rfl).1⟩

/-- `gtMulSqrt` decides exactly the real-number comparison the source
performs: `paid > mean + k * sqrt variance`, rearranged as
`a > k * √v` with `a := paid - mean`. -/
lemma gtMulSqrt_iff_real (a k v : ℚ) (hv : 0 ≤ v) :
    gtMulSqrt a k v = true ↔ (k : ℝ) * Real.sqrt (v : ℝ) < (a : ℝ) := by
  have hs0 : 0 ≤ Real.sqrt (v : ℝ) := Real.sqrt_nonneg _
  have hs2 : Real.sqrt (v : ℝ) ^ 2 = (v : ℝ) := Real.sq_sqrt (by exact_mod_cast hv)
  set s := Real.sqrt (v : ℝ) with hsdef
  rw [gtMulSqrt]
  by_cases hk : k < 0
  · rw [if_pos hk]
    simp only [Bool.or_eq_true, Bool.and_eq_true, decide_eq_true_eq]
    have hkR : (k : ℝ) < 0 := by exact_mod_cast hk
    constructor
    · rintro ((h | ⟨h0, hvpos⟩) | ⟨ha, hsq⟩)
      · have haR : (0 : ℝ) < (a : ℝ) := by exact_mod_cast h
        nlinarith
      · have ha0 : (a : ℝ) = 0 := by exact_mod_cast h0
        have hvR : (0 : ℝ) < (v : ℝ) := by exact_mod_cast hvpos
        have hspos : 0 < s := by nlinarith
        nlinarith
      · have haR : (a : ℝ) < 0 := by exact_mod_cast ha
        have hsqR : (a : ℝ) ^ 2 < (k : ℝ) ^ 2 * (v : ℝ) := by exact_mod_cast hsq
        have hks : (k : ℝ) * s ≤ 0 := by nlinarith
        nlinarith
    · intro h
      rcases lt_trichotomy a 0 with ha | ha | ha
      · refine Or.inr ⟨ha, ?_⟩
        have haR : (a : ℝ) < 0 := by exact_mod_cast ha
        have hks : (k : ℝ) * s ≤ 0 := by nlinarith
        have : (a : ℝ) ^ 2 < (k : ℝ) ^ 2 * (v : ℝ) := by nlinarith
        exact_mod_cast this
      · refine Or.inl (Or.inr ⟨ha, ?_⟩)
        have ha0 : (a : ℝ) = 0 := by exact_mod_cast ha
        have hspos : 0 < s := by nlinarith
        have hvR : (0 : ℝ) < (v : ℝ) := by nlinarith
        exact_mod_cast hvR
      · exact Or.inl (Or.inl ha)
  · rw [if_neg hk]
    simp only [Bool.and_eq_true, decide_eq_true_eq]
    have hkR : (0 : ℝ) ≤ (k : ℝ) := by exact_mod_cast not_lt.1 hk
    have hks : 0 ≤ (k : ℝ) * s := mul_nonneg hkR hs0
    constructor
    · rintro ⟨h1, h2⟩
      have h1R : (0 : ℝ) < (a : ℝ) := by exact_mod_cast h1
      have h2R : (k : ℝ) ^ 2 * (v : ℝ) < (a : ℝ) ^ 2 := by exact_mod_cast h2
      nlinarith
    · intro h
      have h1R : (0 : ℝ) < (a : ℝ) := lt_of_le_of_lt hks h
      refine ⟨by exact_mod_cast h1R, ?_⟩
      have : (k : ℝ) ^ 2 * (v : ℝ) < (a : ℝ) ^ 2 := by nlinarith
      exact_mod_cast this

/-! ### C2 -/

lemma dealer_stats_mem {data : List Claim} {s : DealerStat}
    (h : s ∈ dealer_stats data) :
    s.dealer ∈ dealerKeys data ∧
      s = { dealer := s.dealer, claim_count := dealer_claim_count data s.dealer,
            total_paid := dealer_total_paid data s.dealer,
            avg_paid := dealer_avg_paid data s.dealer } := by
  obtain ⟨d, hd, rfl⟩ := List.mem_map.1 h
  exact ⟨hd, rfl⟩

lemma mem_dealerKeys_of_mem {data : List Claim} {c : Claim} (hc : c ∈ data) :
    c.sellingDealer ∈ dealerKeys data :=
  List.mem_dedup.2 (List.mem_map.2 ⟨c, hc, rfl⟩)

/-- C2: a dealer-stats row is flagged iff its claim count reaches
`count_threshold` OR its average paid reaches `overall_avg × multiplier`
(either condition alone qualifies), and the accompanying claims set is
exactly the table rows of the flagged dealers. -/
theorem high_claims_per_dealer_or_semantics (data : List Claim)
    (ct : Int) (mult : ℚ) :
    (∀ s, s ∈ detect_high_claims_per_dealer data ct mult ↔
        s ∈ dealer_stats data ∧
          (ct ≤ (s.claim_count : Int) ∨ overall_avg data * mult ≤ s.avg_paid)) ∧
    (∀ c, c ∈ high_claims_per_dealer_claims data ct mult ↔
        c ∈ data ∧
          (ct ≤ (dealer_claim_count data c.sellingDealer : Int) ∨
            overall_avg data * mult ≤ dealer_avg_paid data c.sellingDealer)) := by
  have hstats : ∀ s, s ∈ detect_high_claims_per_dealer data ct mult ↔
      s ∈ dealer_stats data ∧
        (ct ≤ (s.claim_count : Int) ∨ overall_avg data * mult ≤ s.avg_paid) := by
    intro s
    simp [detect_high_claims_per_dealer, List.mem_filter, dealerFlagged]
  refine ⟨hstats, ?_⟩
  intro c
  rw [high_claims_per_dealer_claims, List.mem_filter]
  simp only [decide_eq_true_eq, List.mem_map]
  constructor
  · rintro ⟨hc, s, hs, hsd⟩
    obtain ⟨-, hform⟩ := dealer_stats_mem ((hstats s).1 hs).1
    have hcond := ((hstats s).1 hs).2
    rw [hform] at hcond
    rw [← hsd]
    exact ⟨hc, by simpa using hcond⟩
  · rintro ⟨hc, hcond⟩
    refine ⟨hc, ?_⟩
    refine ⟨{ dealer := c.sellingDealer,
              claim_count := dealer_claim_count data c.sellingDealer,
              total_paid := dealer_total_paid data c.sellingDealer,
              avg_paid := dealer_avg_paid data c.sellingDealer }, ?_, rfl⟩
    refine (hstats _).2 ⟨List.mem_map.2 ⟨c.sellingDealer, mem_dealerKeys_of_mem hc, rfl⟩, ?_⟩
    simpa using hcond

/-! ### C6 -/

/-- C6: on the empty Claims Table every detector returns an empty finding
and the summary reports zero totals and counts, with no detector section
present (every operation is a total function, so nothing can raise).  The
`avgClaimAmount`/`maxClaimAmount` fields are `0` under the rational
division-by-zero convention where pandas formats a `NaN`. -/
theorem empty_table_all_empty (t : Int) (k : ℚ) (d : Int) (ct : Int) (mult : ℚ) :
    detect_multiple_claims_per_vin [] t = [] ∧
    detect_high_dollar_claims [] k = [] ∧
    detect_multiple_dealers_per_vin [] = [] ∧
    detect_repeated_claims_timeframe [] d = [] ∧
    detect_high_claims_per_dealer [] ct mult = [] ∧
    high_claims_per_dealer_claims [] ct mult = [] ∧
    detect_luxury_vehicle_patterns [] = [] ∧
    luxuryClaims [] = [] ∧
    detect_coverage_type_patterns [] = [] ∧
    generate_summary_report [] t k d ct mult =
      { totalClaims := 0, totalPaid := 0, avgClaimAmount := 0, maxClaimAmount := 0,
        uniqueVins := 0, uniqueDealers := 0, multipleClaimsVin := none,
        highDollar := none, multipleDealersVin := none, repeatedTimeframe := none,
        highClaimsDealer := none, luxury := none, coverageTypes := 0 } := by
  refine ⟨rfl, rfl, rfl, rfl, rfl, rfl, rfl, rfl, rfl, ?_⟩
  simp [generate_summary_report, detect_multiple_claims_per_vin,
    detect_high_dollar_claims, detect_multiple_dealers_per_vin,
    detect_repeated_claims_timeframe, detect_high_claims_per_dealer,
    high_claims_per_dealer_claims, detect_luxury_vehicle_patterns,
    luxuryClaims, detect_coverage_type_patterns, dealer_stats, dealerKeys,
    luxuryKeys, coverageKeys, paidMean, ratMean, ratMax, findingVins, nunique]

/-! ### C9 -/

/-- C9: no detector and not the summary assembler mutates the Claims
Table; the luxury detector's only write is adding the derived `Brand`
column (`brandOf` of each row's vehicle), leaving every row and every
other column unchanged. -/
theorem detectors_frame (s : DetectorState) (t : Int) (k : ℚ) (d ct : Int)
    (mult : ℚ) :
    (detect_multiple_claims_per_vin_run s t).1 = s ∧
    (detect_high_dollar_claims_run s k).1 = s ∧
    (detect_multiple_dealers_per_vin_run s).1 = s ∧
    (detect_repeated_claims_timeframe_run s d).1 = s ∧
    (detect_high_claims_per_dealer_run s ct mult).1 = s ∧
    (detect_coverage_type_patterns_run s).1 = s ∧
    (generate_summary_report_run s t k d ct mult).1 = s ∧
    (detect_luxury_vehicle_patterns_run s).1.data = s.data ∧
    (detect_luxury_vehicle_patterns_run s).1.brandCol =
      some (s.data.map (fun c => brandOf c.vehicle)) :=
  ⟨rfl, rfl, rfl, rfl, rfl, rfl, rfl, rfl, rfl⟩

/-! ### C7 -/

/-- C7 counterexample: run against a table with no columns at all, the
VIN detector's outcome is the unchecked `KeyError('VIN')` escaping from
`groupby`, not an explicit "unsupported dataset schema" condition — the
code contains no schema check at all. -/
theorem missing_column_counterexample :
    detect_multiple_claims_per_vin_checked [] [] 2 = PyOutcome.keyError "VIN" ∧
    detect_multiple_claims_per_vin_checked [] [] 2 ≠ PyOutcome.schemaError := by
  constructor
  · rfl
  · intro h
    simp [detect_multiple_claims_per_vin_checked] at h

/-- C7 amended: whenever the expected `VIN` column is absent from the
table's schema, the detector fails with the unchecked `KeyError` naming
the missing column; no explicit schema condition is ever surfaced. -/
theorem missing_column_keyerror (cols : List String) (data : List Claim)
    (t : Int) (h : "VIN" ∉ cols) :
    detect_multiple_claims_per_vin_checked cols data t = PyOutcome.keyError "VIN" := by
  rw [detect_multiple_claims_per_vin_checked, if_neg h]

/-- Witness for `missing_column_keyerror` at a concrete schema. -/
theorem missing_column_keyerror_witness :
    "VIN" ∉ ["Paid Amount", "Coverage"] ∧
    detect_multiple_claims_per_vin_checked ["Paid Amount", "Coverage"] [] 2 =
      PyOutcome.keyError "VIN" :=
  ⟨by decide, missing_column_keyerror _ [] 2 (by decide)⟩

/-! ### C8 -/

/-- C8: cleaning invariants.  Every cleaned row comes from a raw row that
was not entirely empty (so entirely-empty rows are removed), every
non-empty raw row survives, a `paid_amount` that did not parse (missing or
unparsable) is coerced to `0`, absent dealer and servicer strings become
`"Unknown"`, and unparsable dates become null rather than zero or an
error.  Field non-nullness of `paidAmount`/`sellingDealer`/
`defaultServicer` is carried by the `Claim` type itself. -/
theorem clean_data_invariants (raw : List RawClaim) :
    (∀ c ∈ clean_data raw, ∃ r, r ∈ raw ∧ rowEmpty r = false ∧ c = cleanClaim r) ∧
    (∀ r ∈ raw, rowEmpty r = false → cleanClaim r ∈ clean_data raw) ∧
    (∀ r : RawClaim, (∀ q, r.paidAmount ≠ RawCell.parsed q) →
      (cleanClaim r).paidAmount = 0) ∧
    (∀ r : RawClaim, r.sellingDealer = none →
      (cleanClaim r).sellingDealer = "Unknown") ∧
    (∀ r : RawClaim, r.defaultServicer = none →
      (cleanClaim r).defaultServicer = "Unknown") ∧
    (∀ r : RawClaim, r.roDate = RawCell.unparsable → (cleanClaim r).roDate = none) ∧
    (∀ r : RawClaim, r.entryDate = RawCell.unparsable →
      (cleanClaim r).entryDate = none) := by
  refine ⟨?_, ?_, ?_, ?_, ?_, ?_, ?_⟩
  · intro c hc
    obtain ⟨r, hr, rfl⟩ := List.mem_map.1 hc
    obtain ⟨hraw, hne⟩ := List.mem_filter.1 hr
    exact ⟨r, hraw, by simpa using hne, rfl⟩
  · intro r hr hne
    exact List.mem_map.2 ⟨r, List.mem_filter.2 ⟨hr, by simp [hne]⟩, rfl⟩
  · intro r hq
    cases h : r.paidAmount with
    | parsed q => exact absurd h (hq q)
    | missing => simp [cleanClaim, h]
    | unparsable => simp [cleanClaim, h]
  · intro r h
    simp [cleanClaim, h]
  · intro r h
    simp [cleanClaim, h]
  · intro r h
    simp [cleanClaim, h]
  · intro r h
    simp [cleanClaim, h]

/-- Witness for `clean_data_invariants` at a concrete raw table: a row with
an unparsable paid amount, a missing dealer and an unparsable date is kept
(it is not entirely empty) and coerced to `0` / `"Unknown"` / null. -/
def rawSample : RawClaim :=
  { claimNum := some "c1", vin := none, paidAmount := RawCell.unparsable,
    sellingDealer := none, roDate := RawCell.unparsable,
    entryDate := RawCell.missing, vehicle := none, coverage := none,
    defaultServicer := none }

theorem clean_data_invariants_witness :
    (∀ q, rawSample.paidAmount ≠ RawCell.parsed q) ∧
    rawSample.sellingDealer = none ∧
    rawSample.roDate = RawCell.unparsable ∧
    (cleanClaim rawSample).paidAmount = 0 ∧
    (cleanClaim rawSample).sellingDealer = "Unknown" ∧
    (cleanClaim rawSample).roDate = none := by
  refine ⟨?_, rfl, rfl, ?_, ?_, ?_⟩
  · intro q h
    cases h
  · exact (clean_data_invariants [rawSample]).2.2.1 rawSample (fun q h => by cases h)
  · exact (clean_data_invariants [rawSample]).2.2.2.1 rawSample rfl
  · exact (clean_data_invariants [rawSample]).2.2.2.2.2.1 rawSample rfl

/-! ### C3 -/

lemma scanPairs_allNone (d : Int) :
    ∀ l : List (Option Int), (∀ x ∈ l, x = none) → scanPairs d l = false := by
  intro l
  induction l with
  | nil => intro _; rfl
  | cons a t ih =>
    intro h
    cases t with
    | nil =>
      have ha := h a (by simp)
      subst ha
      rfl
    | cons b t2 =>
      have ha := h a (by simp)
      have hb := h b (by simp)
      subst ha
      subst hb
      simp only [scanPairs]
      rw [ih (fun x hx => h x (List.mem_cons_of_mem _ hx))]
      rfl

lemma filterMap_id_allNone (l : List (Option Int))
    (h : ∀ x ∈ l, x = none) : l.filterMap id = [] := by
  induction l with
  | nil => rfl
  | cons a t ih =>
    have ha := h a (by simp)
    subst ha
    simpa using ih (fun x hx => h x (List.mem_cons_of_mem _ hx))

lemma scanPairs_sorted (d : Int) :
    ∀ l : List (Option Int), l.Sorted optLE →
      scanPairs d l = hasClosePair d (l.filterMap id) := by
  intro l
  induction l with
  | nil => intro _; rfl
  | cons a t ih =>
    intro h
    cases t with
    | nil => cases a <;> rfl
    | cons b t2 =>
      have ih2 := ih h.of_cons
      cases a with
      | none =>
        cases b with
        | none =>
          simpa [scanPairs, List.filterMap_cons] using ih2
        | some y =>
          exact absurd (List.rel_of_sorted_cons h (some y) (by simp)) (by simp [optLE])
      | some x =>
        cases b with
        | some y =>
          simp only [scanPairs, hasClosePair, List.filterMap_cons, id] at ih2 ⊢
          rw [ih2]
        | none =>
          have hall : ∀ z ∈ (none : Option Int) :: t2, z = none := by
            intro z hz
            rcases List.mem_cons.1 hz with h1 | h1
            · exact h1
            · have := List.rel_of_sorted_cons h.of_cons z h1
              cases z with
              | none => rfl
              | some w => exact absurd this (by simp [optLE])
          simp only [scanPairs, List.filterMap_cons, id]
          rw [scanPairs_allNone d _ hall,
            filterMap_id_allNone t2 (fun x hx => hall x (List.mem_cons_of_mem _ hx))]
          rfl

lemma sorted_filterMap_id (l : List (Option Int)) (h : l.Sorted optLE) :
    (l.filterMap id).Sorted (fun x y : Int => x ≤ y) := by
  rw [List.Sorted, List.pairwise_filterMap]
  refine h.imp ?_
  intro a b hab x hx y hy
  cases a <;> cases b <;> simp_all [optLE, Option.mem_def]

lemma filterMap_id_insertionSort (l : List (Option Int)) :
    (List.insertionSort optLE l).filterMap id =
      List.insertionSort (fun x y : Int => x ≤ y) (l.filterMap id) :=
  List.eq_of_perm_of_sorted
    (((List.perm_insertionSort optLE l).filterMap id).trans
      (List.perm_insertionSort _ _).symm)
    (sorted_filterMap_id _ (List.sorted_insertionSort optLE l))
    (List.sorted_insertionSort _ _)

lemma hasClosePair_two_le (d : Int) :
    ∀ l : List Int, hasClosePair d l = true → 2 ≤ l.length := by
  intro l h
  match l with
  | [] => simp [hasClosePair] at h
  | [x] => simp [hasClosePair] at h
  | x :: y :: rest => simp only [List.length_cons]; omega

/-- The flag computed by the source's sorted consecutive-pair scan agrees
with the sorted-dates formulation: VIN `v` is flagged iff the ascending
sort of its non-null service dates contains an adjacent pair at most `d`
days apart. -/
lemma rapidVin_iff (data : List Claim) (d : Int) (v : String) :
    rapidVin data d v = true ↔
      hasClosePair d
        (List.insertionSort (fun x y : Int => x ≤ y) (vinDates data v)) = true := by
  have key : scanPairs d
      (List.insertionSort optLE ((vinClaims data v).map (fun c => c.roDate))) =
      hasClosePair d
        (List.insertionSort (fun x y : Int => x ≤ y) (vinDates data v)) := by
    rw [scanPairs_sorted d _ (List.sorted_insertionSort optLE _),
      filterMap_id_insertionSort]
    congr 1
    rw [List.filterMap_map]
    rfl
  rw [rapidVin, Bool.and_eq_true, decide_eq_true_eq, key]
  constructor
  · rintro ⟨-, h⟩
    exact h
  · intro h
    refine ⟨?_, h⟩
    have h2 := hasClosePair_two_le d _ h
    rw [(List.perm_insertionSort _ _).length_eq] at h2
    have h3 : (vinDates data v).length ≤ (vinClaims data v).length :=
      List.length_filterMap_le _ _
    unfold vin_claim_count
    omega

/-- C3: a row is in `detect_repeated_claims_timeframe(d)` iff it is a
table row whose (non-null) VIN is flagged, and a VIN is flagged iff some
adjacent pair of its date-sorted, non-null service dates is at most `d`
days apart.  Rows with null dates are absent from `vinDates`, so they
never form a qualifying pair yet do not stop the VIN from being flagged
through other pairs; all rows of a flagged VIN are returned. -/
theorem repeated_claims_timeframe_correct (data : List Claim) (d : Int) (c : Claim) :
    c ∈ detect_repeated_claims_timeframe data d ↔
      c ∈ data ∧ ∃ v, c.vin = some v ∧
        hasClosePair d
          (List.insertionSort (fun x y : Int => x ≤ y) (vinDates data v)) = true := by
  cases h : c.vin with
  | none => simp [detect_repeated_claims_timeframe, List.mem_filter, h]
  | some v =>
    simp only [detect_repeated_claims_timeframe, List.mem_filter, h,
      Option.some.injEq]
    constructor
    · rintro ⟨hc, hr⟩
      exact ⟨hc, v, rfl, (rapidVin_iff data d v).1 hr⟩
    · rintro ⟨hc, w, hw, hcp⟩
      subst hw
      exact ⟨hc, (rapidVin_iff data d v).2 hcp⟩

/-! ### C4 -/

lemma foldl_max_mem (xs : List ℚ) :
    ∀ x : ℚ, xs.foldl max x = x ∨ xs.foldl max x ∈ xs := by
  induction xs with
  | nil => intro x; exact Or.inl rfl
  | cons y ys ih =>
    intro x
    rcases ih (max x y) with h | h
    · rcases max_choice x y with hmax | hmax
      · left; rw [List.foldl_cons, h, hmax]
      · right; rw [List.foldl_cons, h, hmax]; simp
    · right; rw [List.foldl_cons]; exact List.mem_cons_of_mem _ h

lemma le_foldl_max (xs : List ℚ) :
    ∀ x, x ≤ xs.foldl max x ∧ ∀ a ∈ xs, a ≤ xs.foldl max x := by
  induction xs with
  | nil => intro x; exact ⟨le_refl x, by simp⟩
  | cons y ys ih =>
    intro x
    obtain ⟨h1, h2⟩ := ih (max x y)
    refine ⟨le_trans (le_max_left x y) h1, ?_⟩
    intro a ha
    rcases List.mem_cons.1 ha with rfl | ha
    · exact le_trans (le_max_right x a) h1
    · exact h2 a ha

lemma ratMax_spec (l : List ℚ) (h : l ≠ []) :
    ratMax l ∈ l ∧ ∀ a ∈ l, a ≤ ratMax l := by
  cases l with
  | nil => exact absurd rfl h
  | cons x xs =>
    constructor
    · rcases foldl_max_mem xs x with h1 | h1
      · rw [ratMax, h1]; simp
      · rw [ratMax]; exact List.mem_cons_of_mem _ h1
    · intro a ha
      rcases List.mem_cons.1 ha with rfl | ha
      · exact (le_foldl_max xs a).1
      · exact (le_foldl_max xs x).2 a ha

/-- The claimed per-group aggregate correctness: `total_paid` is the sum
over exactly the group's claims and `max_paid` is the true maximum. -/
def statTotalsCorrect (stats : List GroupStat) (groups : String → List Claim) : Prop :=
  ∀ s ∈ stats,
    s.total_paid = ((groups s.key).map (fun c => c.paidAmount)).sum ∧
    s.max_paid ∈ (groups s.key).map (fun c => c.paidAmount) ∧
    ∀ a ∈ (groups s.key).map (fun c => c.paidAmount), a ≤ s.max_paid

/-- The claimed exact-partition property: every claim of `input` is in
some group and no claim is in the groups of two different stat rows. -/
def groupsPartition (stats : List GroupStat) (input : List Claim)
    (groups : String → List Claim) : Prop :=
  (∀ c ∈ input, ∃ s ∈ stats, c ∈ groups s.key) ∧
  (∀ s1 ∈ stats, ∀ s2 ∈ stats, ∀ c ∈ input,
    c ∈ groups s1.key → c ∈ groups s2.key → s1 = s2)

/-- C4 exactly as stated: both aggregate tables are correct and both group
families partition their input (the whole table for coverage, the luxury
subset for brands) with no claim dropped. -/
def aggregatesPartitionStated (data : List Claim) : Prop :=
  statTotalsCorrect (detect_coverage_type_patterns data) (coverageClaims data) ∧
  statTotalsCorrect (detect_luxury_vehicle_patterns data) (brandClaims data) ∧
  groupsPartition (detect_coverage_type_patterns data) data (coverageClaims data) ∧
  groupsPartition (detect_luxury_vehicle_patterns data) (luxuryClaims data)
    (brandClaims data)

/-- A claim whose `Coverage` cell is null. -/
def nullCoverageClaim : Claim :=
  { claimNum := some "c1", vin := none, paidAmount := 50, sellingDealer := "D",
    roDate := none, entryDate := none, vehicle := none, coverage := none,
    defaultServicer := "S" }

/-- C4 counterexample: on a table holding one claim with a null
`coverage_type`, `groupby('Coverage')` drops the claim — the coverage
groups do not cover the table, so the stated partition property fails. -/
theorem coverage_partition_counterexample :
    ¬ aggregatesPartitionStated [nullCoverageClaim] := by
  intro h
  rcases h with ⟨-, -, hcov, -⟩
  rcases hcov with ⟨hcover, -⟩
  obtain ⟨s, hs, -⟩ := hcover nullCoverageClaim (by simp)
  simp [detect_coverage_type_patterns, coverageKeys, nullCoverageClaim] at hs

lemma coverage_stats_mem {data : List Claim} {s : GroupStat} :
    s ∈ detect_coverage_type_patterns data ↔
      s.key ∈ coverageKeys data ∧
        s = mkGroupStat s.key (coverageClaims data s.key) := by
  rw [detect_coverage_type_patterns, List.mem_insertionSort]
  constructor
  · intro h
    obtain ⟨k, hk, rfl⟩ := List.mem_map.1 h
    exact ⟨hk, rfl⟩
  · rintro ⟨hk, hs⟩
    exact List.mem_map.2 ⟨s.key, hk, hs.symm⟩

lemma luxury_stats_mem {data : List Claim} {s : GroupStat} :
    s ∈ detect_luxury_vehicle_patterns data ↔
      s.key ∈ luxuryKeys data ∧ s = mkGroupStat s.key (brandClaims data s.key) := by
  rw [detect_luxury_vehicle_patterns, List.mem_insertionSort]
  constructor
  · intro h
    obtain ⟨k, hk, rfl⟩ := List.mem_map.1 h
    exact ⟨hk, rfl⟩
  · rintro ⟨hk, hs⟩
    exact List.mem_map.2 ⟨s.key, hk, hs.symm⟩

lemma mem_coverageClaims {data : List Claim} {c : Claim} {v : String} :
    c ∈ coverageClaims data v ↔ c ∈ data ∧ c.coverage = some v := by
  simp [coverageClaims, List.mem_filter]

lemma mem_luxuryClaims {data : List Claim} {c : Claim} :
    c ∈ luxuryClaims data ↔
      c ∈ data ∧ ∃ b, brandOf c.vehicle = some b ∧ b ∈ luxury_brands := by
  rw [luxuryClaims, List.mem_filter]
  cases hb : brandOf c.vehicle with
  | none => simp [hb]
  | some b => simp [hb]

lemma mem_brandClaims {data : List Claim} {c : Claim} {b : String} :
    c ∈ brandClaims data b ↔ c ∈ luxuryClaims data ∧ brandOf c.vehicle = some b := by
  simp [brandClaims, List.mem_filter]

lemma mkGroupStat_totals (key : String) (group : List Claim) (h : group ≠ []) :
    (mkGroupStat key group).total_paid = (group.map (fun c => c.paidAmount)).sum ∧
    (mkGroupStat key group).max_paid ∈ group.map (fun c => c.paidAmount) ∧
    ∀ a ∈ group.map (fun c => c.paidAmount), a ≤ (mkGroupStat key group).max_paid := by
  have hne : group.map (fun c => c.paidAmount) ≠ [] := by
    simpa using h
  obtain ⟨h1, h2⟩ := ratMax_spec _ hne
  exact ⟨rfl, h1, h2⟩

lemma coverageClaims_ne_nil {data : List Claim} {v : String}
    (hv : v ∈ coverageKeys data) : coverageClaims data v ≠ [] := by
  obtain ⟨c, hc, hcv⟩ :=
    List.mem_filterMap.1 (List.mem_dedup.1 hv)
  intro hnil
  have hmem : c ∈ coverageClaims data v := mem_coverageClaims.2 ⟨hc, hcv⟩
  rw [hnil] at hmem
  exact absurd hmem (List.not_mem_nil c)

lemma brandClaims_ne_nil {data : List Claim} {b : String}
    (hb : b ∈ luxuryKeys data) : brandClaims data b ≠ [] := by
  obtain ⟨c, hc, hcb⟩ :=
    List.mem_filterMap.1 (List.mem_dedup.1 hb)
  intro hnil
  have hmem : c ∈ brandClaims data b := mem_brandClaims.2 ⟨hc, hcb⟩
  rw [hnil] at hmem
  exact absurd hmem (List.not_mem_nil c)

/-- C4 amended: both aggregate tables have the claimed per-group totals
and maxima, and the groups partition — exactly — the claims whose grouping
key is non-null: for coverage this is the subset of the table with a
non-null `coverage_type` (a null-coverage claim is silently dropped by the
grouping, which is what the counterexample exhibits), while for the luxury
detector the filtered input always has a non-null brand, so its partition
is exact as originally stated. -/
theorem coverage_luxury_aggregates_amended (data : List Claim) :
    statTotalsCorrect (detect_coverage_type_patterns data) (coverageClaims data) ∧
    statTotalsCorrect (detect_luxury_vehicle_patterns data) (brandClaims data) ∧
    (∀ c ∈ data, ∀ v, c.coverage = some v →
      ∃ s ∈ detect_coverage_type_patterns data, c ∈ coverageClaims data s.key) ∧
    (∀ c ∈ data, c.coverage = none →
      ∀ s ∈ detect_coverage_type_patterns data, c ∉ coverageClaims data s.key) ∧
    (∀ s1 ∈ detect_coverage_type_patterns data,
      ∀ s2 ∈ detect_coverage_type_patterns data,
      ∀ c, c ∈ coverageClaims data s1.key → c ∈ coverageClaims data s2.key →
        s1 = s2) ∧
    groupsPartition (detect_luxury_vehicle_patterns data) (luxuryClaims data)
      (brandClaims data) := by
  refine ⟨?_, ?_, ?_, ?_, ?_, ?_, ?_⟩
  · intro s hs
    obtain ⟨hk, hform⟩ := coverage_stats_mem.1 hs
    rw [hform]
    exact mkGroupStat_totals s.key _ (coverageClaims_ne_nil hk)
  · intro s hs
    obtain ⟨hk, hform⟩ := luxury_stats_mem.1 hs
    rw [hform]
    exact mkGroupStat_totals s.key _ (brandClaims_ne_nil hk)
  · intro c hc v hv
    have hkey : v ∈ coverageKeys data :=
      List.mem_dedup.2 (List.mem_filterMap.2 ⟨c, hc, hv⟩)
    exact ⟨mkGroupStat v (coverageClaims data v),
      coverage_stats_mem.2 ⟨hkey, rfl⟩, mem_coverageClaims.2 ⟨hc, hv⟩⟩
  · intro c _ h0 s _ hmem
    rw [(mem_coverageClaims.1 hmem).2] at h0
    cases h0
  · intro s1 hs1 s2 hs2 c hm1 hm2
    obtain ⟨-, hf1⟩ := coverage_stats_mem.1 hs1
    obtain ⟨-, hf2⟩ := coverage_stats_mem.1 hs2
    have hk12 : s1.key = s2.key := by
      have e1 := (mem_coverageClaims.1 hm1).2
      have e2 := (mem_coverageClaims.1 hm2).2
      rw [e1] at e2
      exact Option.some.inj e2
    rw [hf1, hf2, hk12]
  · intro c hc
    obtain ⟨-, b, hb, -⟩ := mem_luxuryClaims.1 hc
    have hkey : b ∈ luxuryKeys data :=
      List.mem_dedup.2 (List.mem_filterMap.2 ⟨c, hc, hb⟩)
    exact ⟨mkGroupStat b (brandClaims data b),
      luxury_stats_mem.2 ⟨hkey, rfl⟩, mem_brandClaims.2 ⟨hc, hb⟩⟩
  · intro s1 hs1 s2 hs2 c _ hm1 hm2
    obtain ⟨-, hf1⟩ := luxury_stats_mem.1 hs1
    obtain ⟨-, hf2⟩ := luxury_stats_mem.1 hs2
    have hk12 : s1.key = s2.key := by
      have e1 := (mem_brandClaims.1 hm1).2
      have e2 := (mem_brandClaims.1 hm2).2
      rw [e1] at e2
      exact Option.some.inj e2
    rw [hf1, hf2, hk12]

/-- A luxury claim with a non-null coverage type, for the witness below. -/
def luxSample : Claim :=
  { claimNum := some "c2", vin := some "V", paidAmount := 70,
    sellingDealer := "D", roDate := none, entryDate := none,
    vehicle := some "2020 BMW X5", coverage := some "GOLD",
    defaultServicer := "S" }

/-- Witness for `coverage_luxury_aggregates_amended` at a concrete table. -/
theorem coverage_luxury_aggregates_amended_witness :
    luxSample ∈ [luxSample] ∧ luxSample.coverage = some "GOLD" ∧
    ∃ s ∈ detect_coverage_type_patterns [luxSample],
      luxSample ∈ coverageClaims [luxSample] s.key := by
  refine ⟨by simp, rfl, ?_⟩
  exact (coverage_luxury_aggregates_amended [luxSample]).2.2.1 luxSample
    (by simp) "GOLD" rfl

end RiskDetect
